import Mathlib

/-!
Verification development for the bookmd note-transcription service.

The Go sources are shallowly embedded:
- `funcs/sql.go` — the note store (`AddNote`, `UpdateNote`, `DeleteNote`,
  `GetNoteByID`, `GetAllNotes`) over a `DB` value that models the SQLite
  `notes` table as a list of rows plus the AUTOINCREMENT counter. A SQL
  `UPDATE ... WHERE id = ?` is modelled as a map over the rows; its
  `RowsAffected` is the number of rows matching the `WHERE` clause.
  `ORDER BY date_created DESC` is modelled as sorting by the stored
  creation timestamp, descending; the theorems establish exactly the
  order-and-multiset contract that SQL guarantees.
- `main.go` — the three API handlers (`AddNoteHandler`, `UpdateNoteHandler`,
  `RegenerateNoteHandler`), with the file system as an association list of
  paths to byte lists inside a `World`, and the HTTP request abstracted to
  the fields each handler inspects (method, form-parse success, form values,
  uploaded file part). `os.Create` + `io.Copy` failures are request-level
  oracles (`createOk`, `copyOk`).
- `funcs/ai.go` — `ConvertImageToMarkdown`. The construction of the
  chat-completion request (MIME sniffing, base64 data URL) is injective in
  the file bytes and does not branch, so it is absorbed into the network
  oracle `Env.net`, which maps the image bytes to the outcome of the single
  `CreateChatCompletion` call. Every control-flow branch of the Go function
  (missing credential, file-read failure, network failure, empty choices)
  is reproduced.
-/

/-- A row of the `notes` table (`Note` in `funcs/sql.go`). `dateCreated` is
an abstract timestamp (larger = later). -/
structure Note where
  id : Int
  dateCreated : Nat
  image : String
  markdown : String
deriving DecidableEq, Repr

/-- The `notes` table: its rows plus the AUTOINCREMENT counter for the next
`id` (SQLite `INTEGER PRIMARY KEY AUTOINCREMENT` never reuses ids). -/
structure DB where
  rows : List Note
  nextId : Int
deriving DecidableEq, Repr

/-- A freshly initialised database, as created by `InitDB`: no rows, first
AUTOINCREMENT id is 1. -/
def emptyDB : DB := { rows := [], nextId := 1 }

/-- `AddNote` (`funcs/sql.go`): `INSERT INTO notes (image, markdown) VALUES (?, ?)`.
The row receives the server-assigned id and the current timestamp
(`date_created DATETIME DEFAULT CURRENT_TIMESTAMP`); the returned `Note` is
rebuilt client-side from the insert arguments and `LastInsertId`. -/
def AddNote (db : DB) (image markdown : String) (now : Nat) : Note × DB :=
  let note : Note := { id := db.nextId, dateCreated := now, image := image, markdown := markdown }
  (note, { rows := db.rows ++ [note], nextId := db.nextId + 1 })

/-- `GetNoteByID` (`funcs/sql.go`): `SELECT ... FROM notes WHERE id = ?`;
`sql.ErrNoRows` becomes the NotFound error string. -/
def GetNoteByID (db : DB) (id : Int) : Except String Note :=
  match db.rows.find? (fun n => n.id == id) with
  | some n => Except.ok n
  | none => Except.error ("no note found with id " ++ toString id)

/-- `UpdateNote` (`funcs/sql.go`): `UPDATE notes SET image = ?, markdown = ?
WHERE id = ?`. The statement rewrites every matching row (touching neither
`id` nor `date_created`); `RowsAffected` is the number of matching rows, and
zero yields the NotFound error. On success the function re-reads the row via
`GetNoteByID`. The second component is the table after the statement ran. -/
def UpdateNote (db : DB) (id : Int) (image markdown : String) : Except String Note × DB :=
  let newRows := db.rows.map (fun n =>
    if n.id = id then { n with image := image, markdown := markdown } else n)
  let rowsAffected := (db.rows.filter (fun n => n.id == id)).length
  let db' : DB := { db with rows := newRows }
  if rowsAffected = 0 then
    (Except.error ("no note found with id " ++ toString id), db')
  else
    (GetNoteByID db' id, db')

/-- `DeleteNote` (`funcs/sql.go`): `DELETE FROM notes WHERE id = ?`, NotFound
when no row matched. Exposed by the store but not wired to any route. -/
def DeleteNote (db : DB) (id : Int) : Except String Unit × DB :=
  let newRows := db.rows.filter (fun n => !(n.id == id))
  let rowsAffected := (db.rows.filter (fun n => n.id == id)).length
  let db' : DB := { db with rows := newRows }
  if rowsAffected = 0 then
    (Except.error ("no note found with id " ++ toString id), db')
  else
    (Except.ok (), db')

/-- The descending-recency order used by `GetAllNotes`:
`a` comes no later than `b` in the output when `b.dateCreated ≤ a.dateCreated`. -/
def dateGE (a b : Note) : Prop := b.dateCreated ≤ a.dateCreated

instance : DecidableRel dateGE := fun a b => Nat.decLe b.dateCreated a.dateCreated

instance : IsTotal Note dateGE := ⟨fun a b => Or.symm (Nat.le_total a.dateCreated b.dateCreated)⟩

instance : IsTrans Note dateGE := ⟨fun _ _ _ h1 h2 => Nat.le_trans h2 h1⟩

/-- `GetAllNotes` (`funcs/sql.go`): `SELECT ... FROM notes ORDER BY
date_created DESC`. SQL promises the multiset of rows arranged so that
`date_created` is non-increasing; this is modelled by a sort under `dateGE`. -/
def GetAllNotes (db : DB) : List Note := List.insertionSort dateGE db.rows

/-- A database reached from `InitDB` by a sequence of creates: each element
of `ops` is (image, markdown, timestamp of the insert). -/
def runCreates (ops : List (String × String × Nat)) : DB :=
  ops.foldl (fun db op => (AddNote db op.1 op.2.1 op.2.2).2) emptyDB

/-- The blob store: the `./images` directory as path ↦ bytes. -/
def FileStore : Type := List (String × List Nat)

instance : DecidableEq FileStore := inferInstanceAs (DecidableEq (List (String × List Nat)))

/-- Reading a file: the bytes at `path`, or `none` when the file is absent
(`os.ReadFile` error, `os.Stat` + `os.IsNotExist`). -/
def lookupFile : FileStore → String → Option (List Nat)
  | [], _ => none
  | (p, b) :: rest, q => if p = q then some b else lookupFile rest q

/-- `os.Create` + `io.Copy`: (over)write the file at `path` with `bytes`. -/
def setFile (files : FileStore) (path : String) (bytes : List Nat) : FileStore :=
  (path, bytes) :: List.filter (fun e => !(e.1 == path)) files

/-- `filepath.Ext`: the suffix of the last path element starting at its final
dot, scanning backwards and stopping at a path separator; empty if no dot. -/
def extRevScan : List Char → List Char → String
  | [], _ => ""
  | c :: rest, acc =>
    if c = '/' then ""
    else if c = '.' then String.mk (c :: acc)
    else extRevScan rest (c :: acc)

/-- `filepath.Ext(name)` over the characters of `name`. -/
def filepathExt (s : String) : String := extRevScan s.toList.reverse []

/-- The stored filename the handlers derive for an upload:
`fmt.Sprintf("%d%s", header.Size, filepath.Ext(header.Filename))`. -/
def storedFilename (size : Int) (originalName : String) : String :=
  toString size ++ filepathExt originalName

/-- `filepath.Join("./images", name)`: Join cleans the result, yielding
`images/<name>`. -/
def joinImages (name : String) : String := "images/" ++ name

/-- A nonempty all-digit run evaluated as a decimal numeral. -/
def digitsVal (cs : List Char) : Option Nat :=
  if cs = [] then none
  else if cs.all Char.isDigit then
    some (cs.foldl (fun acc c => acc * 10 + (c.toNat - 48)) 0)
  else none

/-- `strconv.Atoi`: optional sign, then one or more decimal digits; anything
else is an error (the int64 range check is not modelled — ids in range behave
identically). -/
def atoi (s : String) : Option Int :=
  match s.toList with
  | '+' :: rest => (digitsVal rest).map (fun n => (n : Int))
  | '-' :: rest => (digitsVal rest).map (fun n => -(n : Int))
  | cs => (digitsVal cs).map (fun n => (n : Int))

/-- The message part of one chat-completion choice. -/
structure ChatMessage where
  content : String
deriving DecidableEq, Repr

/-- One choice of a chat-completion response. -/
structure ChatChoice where
  message : ChatMessage
deriving DecidableEq, Repr

/-- A chat-completion response: its list of choices. -/
structure ChatResponse where
  choices : List ChatChoice
deriving DecidableEq, Repr

/-- Process environment of the server: whether `aiClient` was initialised at
startup, the `OPENAI_API_KEY` value, and the network oracle giving the
outcome of the single `CreateChatCompletion` call as a function of the image
bytes embedded in the request. -/
structure Env where
  clientProvided : Bool
  apiKeyEnv : String
  net : List Nat → Except String ChatResponse

/-- `ConvertImageToMarkdown` (`funcs/ai.go`): fail fast when no client was
provided and the credential is absent; read the image file; submit the one
request (the MIME sniff / base64 data URL construction is absorbed into
`env.net`); propagate a network error; treat an empty choices list as a
distinct error; otherwise return the first choice's message content. -/
def ConvertImageToMarkdown (env : Env) (files : FileStore) (path : String) :
    Except String String :=
  if env.clientProvided = false ∧ env.apiKeyEnv = "" then
    Except.error "OPENAI_API_KEY environment variable not set"
  else
    match lookupFile files path with
    | none => Except.error "failed to read image file"
    | some bytes =>
      match env.net bytes with
      | Except.error e => Except.error ("ai request failed: " ++ e)
      | Except.ok resp =>
        match resp.choices with
        | [] => Except.error "no response choices returned"
        | c :: _ => Except.ok c.message.content

/-- An HTTP response: status code and body. -/
structure HttpResponse where
  status : Nat
  body : String
deriving DecidableEq, Repr

/-- `http.Error(w, msg, status)`: sets the status and writes `msg` plus a
newline. -/
def httpError (status : Nat) (msg : String) : HttpResponse :=
  { status := status, body := msg ++ "\n" }

/-- `strings.ReplaceAll(s, "\n", "\\n")`: each newline character becomes the
two-character sequence backslash-n; every other character is kept verbatim. -/
def escapeNewlines (s : String) : String :=
  String.mk (s.toList.foldr (fun c acc => (if c = '\n' then ['\\', 'n'] else [c]) ++ acc) [])

/-- The success envelope all three handlers print with `fmt.Fprintf`:
`{"success": true, "id": %d, "image": "%s", "markdown": "%s"}` where only the
markdown has newlines escaped. -/
def renderEnvelope (id : Int) (image markdown : String) : String :=
  "\x7b\"success\": true, \"id\": " ++ toString id ++ ", \"image\": \"" ++ image
    ++ "\", \"markdown\": \"" ++ escapeNewlines markdown ++ "\"\x7d"

/-- JSON whitespace (RFC 8259). -/
def isJsonWs (c : Char) : Bool := c = ' ' || c = '\t' || c = '\n' || c = '\r'

/-- Drop leading JSON whitespace. -/
def skipWs : List Char → List Char
  | [] => []
  | c :: rest => if isJsonWs c then skipWs rest else c :: rest

/-- A hexadecimal digit. -/
def isHexChar (c : Char) : Bool :=
  c.isDigit || ( 'a' ≤ c && c ≤ 'f') || ( 'A' ≤ c && c ≤ 'F')

/-- Consume the body of a JSON string after its opening quote, returning the
input past the closing quote; `none` on malformed escapes, raw control
characters, or a missing closing quote. -/
def parseStringBody : List Char → Option (List Char)
  | [] => none
  | c :: rest =>
    if c = '"' then some rest
    else if c = '\\' then
      match rest with
      | [] => none
      | e :: rest2 =>
        if e = '"' || e = '\\' || e = '/' || e = 'b' || e = 'f' || e = 'n' || e = 'r' || e = 't' then
          parseStringBody rest2
        else if e = 'u' then
          match rest2 with
          | h1 :: h2 :: h3 :: h4 :: rest3 =>
            if isHexChar h1 && isHexChar h2 && isHexChar h3 && isHexChar h4 then
              parseStringBody rest3
            else none
          | _ => none
        else none
    else if c.toNat < 32 then none
    else parseStringBody rest

/-- Split off a maximal run of decimal digits. -/
def takeDigits : List Char → List Char × List Char
  | [] => ([], [])
  | c :: rest =>
    if c.isDigit then
      let r := takeDigits rest
      (c :: r.1, r.2)
    else ([], c :: rest)

/-- The integer part of a JSON number: `0`, or a nonzero digit followed by
digits (leading zeros are not valid JSON). -/
def parseIntPart : List Char → Option (List Char)
  | [] => none
  | c :: rest =>
    if c = '0' then some rest
    else if c.isDigit then some (takeDigits rest).2
    else none

/-- The optional fraction part of a JSON number. -/
def parseFracPart (cs : List Char) : Option (List Char) :=
  match cs with
  | '.' :: rest =>
    let r := takeDigits rest
    if r.1 = [] then none else some r.2
  | _ => some cs

/-- The optional exponent part of a JSON number. -/
def parseExpPart (cs : List Char) : Option (List Char) :=
  match cs with
  | [] => some []
  | c :: rest =>
    if c = 'e' || c = 'E' then
      let rest2 := match rest with
        | [] => ([] : List Char)
        | s :: r2 => if s = '+' || s = '-' then r2 else s :: r2
      let r := takeDigits rest2
      if r.1 = [] then none else some r.2
    else some (c :: rest)

/-- A JSON number: optional minus, integer part, optional fraction and
exponent. -/
def parseNumber (cs : List Char) : Option (List Char) :=
  let cs1 := match cs with
    | '-' :: r => r
    | _ => cs
  match parseIntPart cs1 with
  | none => none
  | some r1 =>
    match parseFracPart r1 with
    | none => none
    | some r2 => parseExpPart r2

mutual

/-- Consume one JSON value, returning the remaining input; fuel bounds the
nesting recursion. -/
def parseValue : Nat → List Char → Option (List Char)
  | 0, _ => none
  | _ + 1, [] => none
  | fuel + 1, c :: rest =>
    if c = '"' then parseStringBody rest
    else if c = 't' then
      match rest with
      | 'r' :: 'u' :: 'e' :: r => some r
      | _ => none
    else if c = 'f' then
      match rest with
      | 'a' :: 'l' :: 's' :: 'e' :: r => some r
      | _ => none
    else if c = 'n' then
      match rest with
      | 'u' :: 'l' :: 'l' :: r => some r
      | _ => none
    else if c = '[' then
      match skipWs rest with
      | ']' :: r => some r
      | r1 => parseElems fuel r1
    else if c = '\x7b' then
      match skipWs rest with
      | '\x7d' :: r => some r
      | r1 => parseMembers fuel r1
    else if c = '-' || c.isDigit then parseNumber (c :: rest)
    else none

/-- Consume the elements of a nonempty JSON array up to and including the
closing bracket. -/
def parseElems : Nat → List Char → Option (List Char)
  | 0, _ => none
  | fuel + 1, cs =>
    match parseValue fuel cs with
    | none => none
    | some r =>
      match skipWs r with
      | ',' :: r2 => parseElems fuel (skipWs r2)
      | ']' :: r2 => some r2
      | _ => none

/-- Consume the members of a nonempty JSON object up to and including the
closing brace. -/
def parseMembers : Nat → List Char → Option (List Char)
  | 0, _ => none
  | fuel + 1, cs =>
    match cs with
    | '"' :: r =>
      match parseStringBody r with
      | none => none
      | some r1 =>
        match skipWs r1 with
        | ':' :: r2 =>
          match parseValue fuel (skipWs r2) with
          | none => none
          | some r3 =>
            match skipWs r3 with
            | ',' :: r4 => parseMembers fuel (skipWs r4)
            | '\x7d' :: r4 => some r4
            | _ => none
        | _ => none
    | _ => none

end

/-- Whether `s` is a well-formed JSON text: one value, surrounded only by
whitespace. -/
def jsonValid (s : String) : Bool :=
  let cs := s.toList
  match parseValue (cs.length + 1) (skipWs cs) with
  | some r => (skipWs r).isEmpty
  | none => false

/-- The world a handler acts on: the notes table and the images directory. -/
structure World where
  db : DB
  files : FileStore
deriving DecidableEq

/-- The uploaded file part returned by `r.FormFile("image")`: client-supplied
filename, declared size (`header.Size`), and content bytes. -/
structure FilePart where
  filename : String
  size : Int
  content : List Nat
deriving DecidableEq, Repr

/-- The fields of a `/api/add-note` request the handler inspects, plus the
disk oracles for `os.Create` and `io.Copy`. -/
structure AddRequest where
  method : String
  formParseOk : Bool
  imageFile : Option FilePart
  createOk : Bool
  copyOk : Bool
deriving DecidableEq, Repr

/-- `AddNoteHandler` (`main.go`): method check, multipart parse, required
image part, save under `<size><ext>`, transcribe, insert, JSON envelope. -/
def AddNoteHandler (env : Env) (w : World) (req : AddRequest) (now : Nat) :
    HttpResponse × World :=
  if req.method ≠ "POST" then (httpError 405 "Method not allowed", w)
  else if req.formParseOk = false then (httpError 400 "Failed to parse form", w)
  else
    match req.imageFile with
    | none => (httpError 400 "No image file provided", w)
    | some fp =>
      let filename := storedFilename fp.size fp.filename
      let imagePath := joinImages filename
      if req.createOk = false then (httpError 500 "Failed to save image", w)
      else
        let w1 : World := { w with files := setFile w.files imagePath [] }
        if req.copyOk = false then (httpError 500 "Failed to save image", w1)
        else
          let w2 : World := { w with files := setFile w.files imagePath fp.content }
          match ConvertImageToMarkdown env w2.files imagePath with
          | Except.error _ => (httpError 500 "Failed to convert image to markdown", w2)
          | Except.ok markdown =>
            let r := AddNote w2.db filename markdown now
            ({ status := 200, body := renderEnvelope r.1.id r.1.image r.1.markdown },
             { w2 with db := r.2 })

/-- The fields of a `/api/update-note` request the handler inspects.
`idField` is `r.FormValue("id")` (empty string when absent). -/
structure UpdateRequest where
  method : String
  idField : String
  formParseOk : Bool
  imageFile : Option FilePart
  createOk : Bool
  copyOk : Bool
deriving DecidableEq, Repr

/-- `UpdateNoteHandler` (`main.go`): method check, required id, `Atoi`,
multipart parse, required image part, save under `<size><ext>`, transcribe,
`UpdateNote` (any failure there, including NotFound, becomes HTTP 500), JSON
envelope. -/
def UpdateNoteHandler (env : Env) (w : World) (req : UpdateRequest) :
    HttpResponse × World :=
  if req.method ≠ "POST" then (httpError 405 "Method not allowed", w)
  else if req.idField = "" then (httpError 400 "Note ID required", w)
  else
    match atoi req.idField with
    | none => (httpError 400 "Invalid note ID", w)
    | some id =>
      if req.formParseOk = false then (httpError 400 "Failed to parse form", w)
      else
        match req.imageFile with
        | none => (httpError 400 "No image file provided", w)
        | some fp =>
          let filename := storedFilename fp.size fp.filename
          let imagePath := joinImages filename
          if req.createOk = false then (httpError 500 "Failed to save image", w)
          else
            let w1 : World := { w with files := setFile w.files imagePath [] }
            if req.copyOk = false then (httpError 500 "Failed to save image", w1)
            else
              let w2 : World := { w with files := setFile w.files imagePath fp.content }
              match ConvertImageToMarkdown env w2.files imagePath with
              | Except.error _ => (httpError 500 "Failed to convert image to markdown", w2)
              | Except.ok markdown =>
                let r := UpdateNote w2.db id filename markdown
                match r.1 with
                | Except.error _ =>
                  (httpError 500 "Failed to update database", { w2 with db := r.2 })
                | Except.ok note =>
                  ({ status := 200, body := renderEnvelope note.id note.image note.markdown },
                   { w2 with db := r.2 })

/-- The fields of a `/api/regenerate-note` request the handler inspects. -/
structure RegenRequest where
  method : String
  idField : String
  formParseOk : Bool
deriving DecidableEq, Repr

/-- `RegenerateNoteHandler` (`main.go`): method check, required id, `Atoi`,
form parse, `GetNoteByID` (failure → HTTP 404), explicit `os.Stat` existence
check on the referenced image (absence → HTTP 404, before any transcription
attempt), transcribe the existing image, `UpdateNote` with the unchanged
image name and the new markdown (failure → HTTP 500), JSON envelope. -/
def RegenerateNoteHandler (env : Env) (w : World) (req : RegenRequest) :
    HttpResponse × World :=
  if req.method ≠ "POST" then (httpError 405 "Method not allowed", w)
  else if req.idField = "" then (httpError 400 "Note ID required", w)
  else
    match atoi req.idField with
    | none => (httpError 400 "Invalid note ID", w)
    | some id =>
      if req.formParseOk = false then (httpError 400 "Failed to parse form", w)
      else
        match GetNoteByID w.db id with
        | Except.error e => (httpError 404 ("Failed to retrieve note: " ++ e), w)
        | Except.ok note =>
          let imagePath := joinImages note.image
          match lookupFile w.files imagePath with
          | none => (httpError 404 "Image file not found", w)
          | some _ =>
            match ConvertImageToMarkdown env w.files imagePath with
            | Except.error e =>
              (httpError 500 ("Failed to convert image to markdown: " ++ e), w)
            | Except.ok markdown =>
              let r := UpdateNote w.db id note.image markdown
              match r.1 with
              | Except.error e =>
                (httpError 500 ("Failed to update database: " ++ e), { w with db := r.2 })
              | Except.ok un =>
                ({ status := 200, body := renderEnvelope un.id un.image un.markdown },
                 { w with db := r.2 })

deriving instance DecidableEq for Except

/-! ### Helper lemmas -/

/-- Entries whose key differs from `q` are invisible to a lookup of `q`. -/
theorem lookupFile_filter_ne (p q : String) (h : p ≠ q) :
    ∀ fs : FileStore, lookupFile (List.filter (fun e => !(e.1 == p)) fs) q = lookupFile fs q := by
  intro fs
  induction fs with
  | nil => rfl
  | cons e rest ih =>
    obtain ⟨ep, eb⟩ := e
    by_cases hep : ep = p
    · subst hep
      simp [List.filter_cons, lookupFile, h, ih]
    · by_cases hq : ep = q
      · simp [List.filter_cons, lookupFile, hep, hq, Ne.symm h]
      · simp [List.filter_cons, lookupFile, hep, hq, ih]

/-- Writing a file makes exactly its bytes visible at its path and hides
nothing else. -/
theorem lookupFile_setFile (fs : FileStore) (p q : String) (b : List Nat) :
    lookupFile (setFile fs p b) q = if p = q then some b else lookupFile fs q := by
  unfold setFile
  by_cases h : p = q
  · simp [lookupFile, h]
  · rw [if_neg h]
    show (if p = q then some b else lookupFile (List.filter (fun e => !(e.1 == p)) fs) q) = _
    rw [if_neg h, lookupFile_filter_ne p q h fs]

/-- A `WHERE id = ?` clause matching no row selects nothing. -/
theorem filter_id_eq_nil (rows : List Note) (i : Int) (h : ∀ n ∈ rows, n.id ≠ i) :
    rows.filter (fun n => n.id == i) = [] := by
  apply List.filter_eq_nil_iff.mpr
  intro n hn
  simpa using h n hn

/-- An `UPDATE ... WHERE id = ?` matching no row rewrites nothing. -/
theorem map_update_id_of_no_match (rows : List Note) (i : Int) (img md : String)
    (h : ∀ n ∈ rows, n.id ≠ i) :
    rows.map (fun n => if n.id = i then { n with image := img, markdown := md } else n)
      = rows := by
  induction rows with
  | nil => rfl
  | cons a l ih =>
    have ha : ¬a.id = i := h a (by simp)
    have hl : ∀ n ∈ l, n.id ≠ i := fun n hn => h n (by simp [hn])
    simp only [List.map_cons, if_neg ha, ih hl]

/-- The table after `UpdateNote`, identical in the NotFound and the success
case: every matching row gets the new image and markdown, every other row is
kept as it was. -/
theorem updateNote_snd (db : DB) (i : Int) (img md : String) :
    (UpdateNote db i img md).2 =
      { db with rows := db.rows.map (fun n => if n.id = i then { n with image := img, markdown := md } else n) } := by
  by_cases h : (List.filter (fun n => n.id == i) db.rows).length = 0
  · simp [UpdateNote, h]
  · simp [UpdateNote, h]

/-- When some row matches, `UpdateNote` succeeds. -/
theorem updateNote_ok_of_mem (db : DB) (i : Int) (img md : String)
    (n : Note) (hn : n ∈ db.rows) (hid : n.id = i) :
    ∃ m, (UpdateNote db i img md).1 = Except.ok m := by
  have hmemf : n ∈ db.rows.filter (fun x => x.id == i) :=
    List.mem_filter.mpr ⟨hn, by simp [hid]⟩
  have hra : ¬(db.rows.filter (fun x => x.id == i)).length = 0 := by
    intro h0
    rw [List.length_eq_zero] at h0
    rw [h0] at hmemf
    exact (List.not_mem_nil n) hmemf
  have hfind : ∃ m, (db.rows.map (fun x => if x.id = i then { x with image := img, markdown := md } else x)).find? (fun x => x.id == i) = some m := by
    have hmm : (if n.id = i then { n with image := img, markdown := md } else n) ∈
        db.rows.map (fun x => if x.id = i then { x with image := img, markdown := md } else x) :=
      List.mem_map_of_mem _ hn
    have hp : ((if n.id = i then { n with image := img, markdown := md } else n) : Note).id = i := by
      rw [if_pos hid]
      exact hid
    have hs : ((db.rows.map (fun x => if x.id = i then { x with image := img, markdown := md } else x)).find? (fun x => x.id == i)).isSome := by
      apply List.find?_isSome.mpr
      exact ⟨_, hmm, by simp [hp]⟩
    exact Option.isSome_iff_exists.mp hs
  obtain ⟨m, hm⟩ := hfind
  refine ⟨m, ?_⟩
  unfold UpdateNote
  rw [if_neg hra]
  unfold GetNoteByID
  simp only [hm]

/-! ### C1 -/

/-- Claim C1: for every id matching no row of the notes table, `UpdateNote`
fails with the NotFound error and the table is left completely unchanged (no
row's image, markdown or dateCreated is mutated). -/
theorem updateNote_missing_id_fails_and_preserves_store
    (db : DB) (i : Int) (img md : String) (h : ∀ n ∈ db.rows, n.id ≠ i) :
    (UpdateNote db i img md).1 = Except.error ("no note found with id " ++ toString i) ∧
    (UpdateNote db i img md).2 = db := by
  have hf : db.rows.filter (fun n => n.id == i) = [] := filter_id_eq_nil db.rows i h
  have hmap := map_update_id_of_no_match db.rows i img md h
  constructor
  · unfold UpdateNote
    rw [hf]
    simp
  · rw [updateNote_snd, hmap]

/-- Witness for C1 at a concrete store: a one-row table and an id (2) that
matches nothing. -/
theorem updateNote_missing_id_fails_and_preserves_store_witness :
    (UpdateNote { rows := [{ id := 1, dateCreated := 5, image := "1.png", markdown := "m" }], nextId := 2 } 2 "x.png" "y").1
      = Except.error ("no note found with id " ++ toString (2 : Int)) ∧
    (UpdateNote { rows := [{ id := 1, dateCreated := 5, image := "1.png", markdown := "m" }], nextId := 2 } 2 "x.png" "y").2
      = { rows := [{ id := 1, dateCreated := 5, image := "1.png", markdown := "m" }], nextId := 2 } :=
  updateNote_missing_id_fails_and_preserves_store
    { rows := [{ id := 1, dateCreated := 5, image := "1.png", markdown := "m" }], nextId := 2 }
    2 "x.png" "y" (by decide)

/-- The `ORDER BY date_created DESC` contract for any table contents: the
result is a permutation of the rows, arranged with non-increasing creation
timestamps. -/
theorem getAllNotes_spec (db : DB) :
    (GetAllNotes db).Perm db.rows ∧
    List.Pairwise (fun a b => b.dateCreated ≤ a.dateCreated) (GetAllNotes db) :=
  ⟨List.perm_insertionSort dateGE db.rows, List.sorted_insertionSort dateGE db.rows⟩

/-! ### C7 -/

/-- Claim C7: for every state of the notes table — in particular for the state
reached by any interleaving of prior creates — `GetAllNotes` returns exactly
the stored notes, ordered by creation timestamp descending. -/
theorem getAllNotes_ordered_desc (db : DB) (ops : List (String × String × Nat)) :
    ((GetAllNotes db).Perm db.rows ∧
      List.Pairwise (fun a b => b.dateCreated ≤ a.dateCreated) (GetAllNotes db)) ∧
    ((GetAllNotes (runCreates ops)).Perm (runCreates ops).rows ∧
      List.Pairwise (fun a b => b.dateCreated ≤ a.dateCreated) (GetAllNotes (runCreates ops))) :=
  ⟨getAllNotes_spec db, getAllNotes_spec (runCreates ops)⟩

/-! ### C8 -/

/-- Claim C8: `UpdateNote` on an existing id succeeds and changes exactly the
matching row's image and markdown; its id and dateCreated, and every other
row, are untouched, and the table shape (length, AUTOINCREMENT counter) is
preserved. -/
theorem updateNote_existing_id_frame (db : DB) (i : Int) (img md : String)
    (h : ∃ n ∈ db.rows, n.id = i) :
    (∃ note, (UpdateNote db i img md).1 = Except.ok note) ∧
    (UpdateNote db i img md).2.nextId = db.nextId ∧
    (UpdateNote db i img md).2.rows.length = db.rows.length ∧
    ∀ (j : Nat) (old : Note), db.rows[j]? = some old →
      (old.id ≠ i → (UpdateNote db i img md).2.rows[j]? = some old) ∧
      (old.id = i → (UpdateNote db i img md).2.rows[j]? =
          some { old with image := img, markdown := md }) := by
  obtain ⟨n, hn, hnid⟩ := h
  have hrows : (UpdateNote db i img md).2.rows =
      db.rows.map (fun x => if x.id = i then { x with image := img, markdown := md } else x) :=
    congrArg DB.rows (updateNote_snd db i img md)
  refine ⟨updateNote_ok_of_mem db i img md n hn hnid, ?_, ?_, ?_⟩
  · rw [updateNote_snd]
  · rw [hrows, List.length_map]
  · intro j old hold
    constructor
    · intro hne
      rw [hrows, List.getElem?_map, hold]
      simp [if_neg hne]
    · intro heq
      rw [hrows, List.getElem?_map, hold]
      simp [if_pos heq]

/-- Witness for C8: updating id 1 in a concrete one-row table succeeds. -/
theorem updateNote_existing_id_frame_witness :
    ∃ note, (UpdateNote
        { rows := [{ id := 1, dateCreated := 7, image := "a.png", markdown := "old" }], nextId := 2 }
        1 "b.png" "new").1 = Except.ok note :=
  (updateNote_existing_id_frame
      { rows := [{ id := 1, dateCreated := 7, image := "a.png", markdown := "old" }], nextId := 2 }
      1 "b.png" "new" (by decide)).1

/-! ### C9 -/

/-- Claim C9: when the chat-completion call itself succeeds, an empty choices
list makes `ConvertImageToMarkdown` fail with the distinct
"no response choices returned" error — never an empty-string success — and a
nonempty choices list yields the first choice's message content, so an
empty-string success happens exactly when that content is itself empty. -/
theorem convertImage_empty_choices_distinct_error
    (env : Env) (files : FileStore) (path : String) (bytes : List Nat) (resp : ChatResponse)
    (hcred : ¬(env.clientProvided = false ∧ env.apiKeyEnv = ""))
    (hread : lookupFile files path = some bytes)
    (hnet : env.net bytes = Except.ok resp) :
    (resp.choices = [] →
      ConvertImageToMarkdown env files path = Except.error "no response choices returned") ∧
    (∀ c rest, resp.choices = c :: rest →
      ConvertImageToMarkdown env files path = Except.ok c.message.content) ∧
    (ConvertImageToMarkdown env files path = Except.ok "" →
      ∃ c rest, resp.choices = c :: rest ∧ c.message.content = "") := by
  have hbase : ConvertImageToMarkdown env files path =
      (match resp.choices with
        | [] => Except.error "no response choices returned"
        | c :: _ => Except.ok c.message.content) := by
    unfold ConvertImageToMarkdown
    rw [if_neg hcred]
    simp only [hread, hnet]
  refine ⟨?_, ?_, ?_⟩
  · intro hc
    rw [hbase, hc]
  · intro c rest hc
    rw [hbase, hc]
  · intro hok
    rw [hbase] at hok
    cases hx : resp.choices with
    | nil =>
      rw [hx] at hok
      exact absurd hok (by simp)
    | cons c rest =>
      rw [hx] at hok
      simp only [Except.ok.injEq] at hok
      exact ⟨c, rest, rfl, hok⟩

/-- Witness for C9: a present credential, a readable file and a successful
call returning zero choices yield the distinct error. -/
theorem convertImage_empty_choices_distinct_error_witness :
    ConvertImageToMarkdown
      { clientProvided := true, apiKeyEnv := "",
        net := fun _ => Except.ok { choices := [] } }
      [("images/3.png", [1, 2, 3])] "images/3.png"
      = Except.error "no response choices returned" :=
  (convertImage_empty_choices_distinct_error
      { clientProvided := true, apiKeyEnv := "",
        net := fun _ => Except.ok { choices := [] } }
      [("images/3.png", [1, 2, 3])] "images/3.png" [1, 2, 3] { choices := [] }
      (by simp) (by decide) rfl).1 rfl

/-- A successful `GetNoteByID` is exactly a successful `find?` on the rows. -/
theorem getNoteByID_find (db : DB) (i : Int) (note : Note)
    (h : GetNoteByID db i = Except.ok note) :
    db.rows.find? (fun n => n.id == i) = some note := by
  unfold GetNoteByID at h
  cases hfind : db.rows.find? (fun n => n.id == i) with
  | some m =>
    rw [hfind] at h
    simp only [Except.ok.injEq] at h
    rw [h]
  | none =>
    rw [hfind] at h
    exact absurd h (by simp)

/-- With pairwise-distinct ids (the PRIMARY KEY invariant), any member whose
id matches the one `find?` located is that found row itself. -/
theorem mem_id_unique (rows : List Note) (i : Int) (note : Note)
    (huniq : rows.Pairwise (fun a b => a.id ≠ b.id))
    (hfind : rows.find? (fun n => n.id == i) = some note)
    (old : Note) (hold : old ∈ rows) (hid : old.id = i) : old = note := by
  have hnote_mem : note ∈ rows := List.mem_of_find?_eq_some hfind
  have hnote_id : note.id = i := by simpa using List.find?_some hfind
  by_contra hne
  have hforall := List.Pairwise.forall
    (R := fun a b : Note => a.id ≠ b.id) (fun _ _ hab => Ne.symm hab) huniq
  exact (hforall hold hnote_mem hne) (by rw [hid, hnote_id])

/-! ### C3 -/

/-- Claim C3: an `/api/add-note` request whose transcription call fails (for
instance because the AI endpoint returned zero choices) gets HTTP 500 and
inserts no row — the table is exactly as before, because the insert happens
only after a successful transcription. -/
theorem addNoteHandler_transcription_failure_no_insert
    (env : Env) (w : World) (req : AddRequest) (now : Nat) (fp : FilePart) (e : String)
    (hm : req.method = "POST") (hf : req.formParseOk = true) (hi : req.imageFile = some fp)
    (hc : req.createOk = true) (hcp : req.copyOk = true)
    (hconv : ConvertImageToMarkdown env
        (setFile w.files (joinImages (storedFilename fp.size fp.filename)) fp.content)
        (joinImages (storedFilename fp.size fp.filename)) = Except.error e) :
    (AddNoteHandler env w req now).1.status = 500 ∧
    (AddNoteHandler env w req now).2.db = w.db := by
  constructor <;>
    simp [AddNoteHandler, hm, hf, hi, hc, hcp, hconv, httpError]

/-- Witness for C3: a concrete valid upload whose AI response has zero
choices yields 500 and an unchanged (empty) table. -/
theorem addNoteHandler_transcription_failure_no_insert_witness :
    (AddNoteHandler
        { clientProvided := true, apiKeyEnv := "k", net := fun _ => Except.ok { choices := [] } }
        { db := { rows := [], nextId := 1 }, files := [] }
        { method := "POST", formParseOk := true,
          imageFile := some { filename := "a.png", size := 3, content := [1, 2, 3] },
          createOk := true, copyOk := true } 0).1.status = 500 ∧
    (AddNoteHandler
        { clientProvided := true, apiKeyEnv := "k", net := fun _ => Except.ok { choices := [] } }
        { db := { rows := [], nextId := 1 }, files := [] }
        { method := "POST", formParseOk := true,
          imageFile := some { filename := "a.png", size := 3, content := [1, 2, 3] },
          createOk := true, copyOk := true } 0).2.db = { rows := [], nextId := 1 } :=
  addNoteHandler_transcription_failure_no_insert
    { clientProvided := true, apiKeyEnv := "k", net := fun _ => Except.ok { choices := [] } }
    { db := { rows := [], nextId := 1 }, files := [] }
    { method := "POST", formParseOk := true,
      imageFile := some { filename := "a.png", size := 3, content := [1, 2, 3] },
      createOk := true, copyOk := true } 0
    { filename := "a.png", size := 3, content := [1, 2, 3] }
    "no response choices returned" rfl rfl rfl rfl rfl (by decide)

/-! ### C4 -/

/-- Claim C4: a successful `/api/regenerate-note` changes only the target
note's markdown. Under the PRIMARY KEY invariant (pairwise-distinct ids) the
handler answers 200, leaves every image byte in the blob store untouched,
and rewrites the table so that the target row keeps its id, dateCreated and
image and only its markdown becomes the new transcription, while every other
row is identical. -/
theorem regenerateNoteHandler_success_updates_only_markdown
    (env : Env) (w : World) (req : RegenRequest) (i : Int) (note : Note)
    (bytes : List Nat) (md : String)
    (hm : req.method = "POST") (hne : req.idField ≠ "") (ha : atoi req.idField = some i)
    (hf : req.formParseOk = true)
    (hget : GetNoteByID w.db i = Except.ok note)
    (hfile : lookupFile w.files (joinImages note.image) = some bytes)
    (hconv : ConvertImageToMarkdown env w.files (joinImages note.image) = Except.ok md)
    (huniq : w.db.rows.Pairwise (fun a b => a.id ≠ b.id)) :
    (RegenerateNoteHandler env w req).1.status = 200 ∧
    (RegenerateNoteHandler env w req).2.files = w.files ∧
    (RegenerateNoteHandler env w req).2.db.nextId = w.db.nextId ∧
    ∀ (j : Nat) (old : Note), w.db.rows[j]? = some old →
      (old.id ≠ i → (RegenerateNoteHandler env w req).2.db.rows[j]? = some old) ∧
      (old.id = i → (RegenerateNoteHandler env w req).2.db.rows[j]? =
          some { old with markdown := md }) := by
  have hfind : w.db.rows.find? (fun n => n.id == i) = some note :=
    getNoteByID_find w.db i note hget
  have hmem : note ∈ w.db.rows := List.mem_of_find?_eq_some hfind
  have hnid : note.id = i := by simpa using List.find?_some hfind
  obtain ⟨m, hupd⟩ := updateNote_ok_of_mem w.db i note.image md note hmem hnid
  have hred : RegenerateNoteHandler env w req =
      ({ status := 200, body := renderEnvelope m.id m.image m.markdown },
       { w with db := (UpdateNote w.db i note.image md).2 }) := by
    simp [RegenerateNoteHandler, hm, hne, ha, hf, hget, hfile, hconv, hupd]
  have hrows : (RegenerateNoteHandler env w req).2.db.rows =
      w.db.rows.map (fun x =>
        if x.id = i then { x with image := note.image, markdown := md } else x) := by
    rw [hred]
    simp [updateNote_snd]
  refine ⟨by rw [hred], by rw [hred], ?_, ?_⟩
  · rw [hred]
    simp [updateNote_snd]
  · intro j old hold
    constructor
    · intro hne2
      rw [hrows, List.getElem?_map, hold]
      simp [if_neg hne2]
    · intro heq
      have hone : old = note := mem_id_unique w.db.rows i note huniq hfind old
        (List.getElem?_mem hold) heq
      subst hone
      rw [hrows, List.getElem?_map, hold]
      simp [hnid]

/-- Witness for C4: regenerating note 1 in a concrete world answers 200. -/
theorem regenerateNoteHandler_success_updates_only_markdown_witness :
    (RegenerateNoteHandler
        { clientProvided := true, apiKeyEnv := "k",
          net := fun _ => Except.ok { choices := [{ message := { content := "new md" } }] } }
        { db := { rows := [{ id := 1, dateCreated := 7, image := "3.png", markdown := "old" }], nextId := 2 },
          files := [("images/3.png", [1, 2, 3])] }
        { method := "POST", idField := "1", formParseOk := true }).1.status = 200 :=
  (regenerateNoteHandler_success_updates_only_markdown
      { clientProvided := true, apiKeyEnv := "k",
        net := fun _ => Except.ok { choices := [{ message := { content := "new md" } }] } }
      { db := { rows := [{ id := 1, dateCreated := 7, image := "3.png", markdown := "old" }], nextId := 2 },
        files := [("images/3.png", [1, 2, 3])] }
      { method := "POST", idField := "1", formParseOk := true }
      1 { id := 1, dateCreated := 7, image := "3.png", markdown := "old" } [1, 2, 3] "new md"
      rfl (by decide) (by decide) rfl (by decide) (by decide) (by decide) (by decide)).1

/-! ### C5 -/

/-- Claim C5: a `/api/regenerate-note` request whose note exists but whose
referenced image file is absent from the blob directory answers 404 and
leaves the world — in particular the note's markdown — untouched; the
conclusion holds for every environment, i.e. the decision is taken by the
explicit existence check before any transcription attempt. -/
theorem regenerateNoteHandler_missing_image_404_no_mutation
    (w : World) (req : RegenRequest) (i : Int) (note : Note)
    (hm : req.method = "POST") (hne : req.idField ≠ "") (ha : atoi req.idField = some i)
    (hf : req.formParseOk = true)
    (hget : GetNoteByID w.db i = Except.ok note)
    (hfile : lookupFile w.files (joinImages note.image) = none) :
    ∀ env : Env,
      (RegenerateNoteHandler env w req).1.status = 404 ∧
      (RegenerateNoteHandler env w req).2 = w := by
  intro env
  constructor <;>
    simp [RegenerateNoteHandler, hm, hne, ha, hf, hget, hfile, httpError]

/-- Witness for C5: note 1 references `9.png`, which is missing on disk. -/
theorem regenerateNoteHandler_missing_image_404_no_mutation_witness :
    (RegenerateNoteHandler
        { clientProvided := true, apiKeyEnv := "k", net := fun _ => Except.ok { choices := [] } }
        { db := { rows := [{ id := 1, dateCreated := 7, image := "9.png", markdown := "old" }], nextId := 2 },
          files := [] }
        { method := "POST", idField := "1", formParseOk := true }).1.status = 404 ∧
    (RegenerateNoteHandler
        { clientProvided := true, apiKeyEnv := "k", net := fun _ => Except.ok { choices := [] } }
        { db := { rows := [{ id := 1, dateCreated := 7, image := "9.png", markdown := "old" }], nextId := 2 },
          files := [] }
        { method := "POST", idField := "1", formParseOk := true }).2
      = { db := { rows := [{ id := 1, dateCreated := 7, image := "9.png", markdown := "old" }], nextId := 2 },
          files := [] } :=
  regenerateNoteHandler_missing_image_404_no_mutation
    { db := { rows := [{ id := 1, dateCreated := 7, image := "9.png", markdown := "old" }], nextId := 2 },
      files := [] }
    { method := "POST", idField := "1", formParseOk := true }
    1 { id := 1, dateCreated := 7, image := "9.png", markdown := "old" }
    rfl (by decide) (by decide) rfl (by decide) (by decide)
    { clientProvided := true, apiKeyEnv := "k", net := fun _ => Except.ok { choices := [] } }

/-! ### C2 -/

/-- Counterexample to claim C2: on `/api/update-note`, a well-formed id (the
form value "1", parsed by `Atoi`) that matches no stored note (the table is
empty) yields HTTP 500, not 404, because the handler maps every `UpdateNote`
failure — including NotFound — to "Failed to update database" with status
500. -/
theorem updateNoteHandler_unknown_id_gives_500_not_404 :
    (UpdateNoteHandler
        { clientProvided := true, apiKeyEnv := "k",
          net := fun _ => Except.ok { choices := [{ message := { content := "md" } }] } }
        { db := { rows := [], nextId := 1 }, files := [] }
        { method := "POST", idField := "1", formParseOk := true,
          imageFile := some { filename := "a.png", size := 3, content := [1, 2, 3] },
          createOk := true, copyOk := true }).1.status = 500 ∧
    (UpdateNoteHandler
        { clientProvided := true, apiKeyEnv := "k",
          net := fun _ => Except.ok { choices := [{ message := { content := "md" } }] } }
        { db := { rows := [], nextId := 1 }, files := [] }
        { method := "POST", idField := "1", formParseOk := true,
          imageFile := some { filename := "a.png", size := 3, content := [1, 2, 3] },
          createOk := true, copyOk := true }).1.status ≠ 404 ∧
    atoi "1" = some 1 := by
  refine ⟨by decide, by decide, by decide⟩

/-- Claim C2 as amended: a request that fails because its well-formed note id
matches no stored note gets HTTP 404 on `/api/regenerate-note`, but HTTP 500
on `/api/update-note`. -/
theorem notFound_status_regen404_update500
    (env : Env) (w : World) (rreq : RegenRequest) (ureq : UpdateRequest)
    (ri ui : Int) (fp : FilePart) (md : String)
    (hrm : rreq.method = "POST") (hrne : rreq.idField ≠ "") (hra : atoi rreq.idField = some ri)
    (hrf : rreq.formParseOk = true)
    (hrnone : ∀ n ∈ w.db.rows, n.id ≠ ri)
    (hum : ureq.method = "POST") (hune : ureq.idField ≠ "") (hua : atoi ureq.idField = some ui)
    (huf : ureq.formParseOk = true) (huimg : ureq.imageFile = some fp)
    (huc : ureq.createOk = true) (hucp : ureq.copyOk = true)
    (huconv : ConvertImageToMarkdown env
        (setFile w.files (joinImages (storedFilename fp.size fp.filename)) fp.content)
        (joinImages (storedFilename fp.size fp.filename)) = Except.ok md)
    (hunone : ∀ n ∈ w.db.rows, n.id ≠ ui) :
    (RegenerateNoteHandler env w rreq).1.status = 404 ∧
    (UpdateNoteHandler env w ureq).1.status = 500 := by
  constructor
  · have hget : GetNoteByID w.db ri
        = Except.error ("no note found with id " ++ toString ri) := by
      unfold GetNoteByID
      have hn : w.db.rows.find? (fun n => n.id == ri) = none := by
        apply List.find?_eq_none.mpr
        intro n hn
        simpa using hrnone n hn
      rw [hn]
    simp [RegenerateNoteHandler, hrm, hrne, hra, hrf, hget, httpError]
  · have hf0 : w.db.rows.filter (fun n => n.id == ui) = [] :=
      filter_id_eq_nil w.db.rows ui hunone
    have hupd : (UpdateNote w.db ui (storedFilename fp.size fp.filename) md).1
        = Except.error ("no note found with id " ++ toString ui) := by
      unfold UpdateNote
      rw [hf0]
      simp
    simp [UpdateNoteHandler, hum, hune, hua, huf, huimg, huc, hucp, huconv, hupd, httpError]

/-- Witness for the amended C2, on an empty store with well-formed id "1". -/
theorem notFound_status_regen404_update500_witness :
    (RegenerateNoteHandler
        { clientProvided := true, apiKeyEnv := "k",
          net := fun _ => Except.ok { choices := [{ message := { content := "md" } }] } }
        { db := { rows := [], nextId := 1 }, files := [] }
        { method := "POST", idField := "1", formParseOk := true }).1.status = 404 ∧
    (UpdateNoteHandler
        { clientProvided := true, apiKeyEnv := "k",
          net := fun _ => Except.ok { choices := [{ message := { content := "md" } }] } }
        { db := { rows := [], nextId := 1 }, files := [] }
        { method := "POST", idField := "1", formParseOk := true,
          imageFile := some { filename := "a.png", size := 3, content := [1, 2, 3] },
          createOk := true, copyOk := true }).1.status = 500 :=
  notFound_status_regen404_update500
    { clientProvided := true, apiKeyEnv := "k",
      net := fun _ => Except.ok { choices := [{ message := { content := "md" } }] } }
    { db := { rows := [], nextId := 1 }, files := [] }
    { method := "POST", idField := "1", formParseOk := true }
    { method := "POST", idField := "1", formParseOk := true,
      imageFile := some { filename := "a.png", size := 3, content := [1, 2, 3] },
      createOk := true, copyOk := true }
    1 1 { filename := "a.png", size := 3, content := [1, 2, 3] } "md"
    rfl (by decide) (by decide) rfl (by decide)
    rfl (by decide) (by decide) rfl rfl rfl rfl (by decide) (by decide)

/-! ### C6 -/

/-- Whatever the transcription outcome, a valid `/api/add-note` upload leaves
the blob store with exactly the uploaded bytes at the derived path. -/
theorem addNoteHandler_files
    (env : Env) (w : World) (req : AddRequest) (now : Nat) (fp : FilePart)
    (hm : req.method = "POST") (hf : req.formParseOk = true) (hi : req.imageFile = some fp)
    (hc : req.createOk = true) (hcp : req.copyOk = true) :
    (AddNoteHandler env w req now).2.files =
      setFile w.files (joinImages (storedFilename fp.size fp.filename)) fp.content := by
  cases hconv : ConvertImageToMarkdown env
      (setFile w.files (joinImages (storedFilename fp.size fp.filename)) fp.content)
      (joinImages (storedFilename fp.size fp.filename)) with
  | error e => simp [AddNoteHandler, hm, hf, hi, hc, hcp, hconv]
  | ok md => simp [AddNoteHandler, hm, hf, hi, hc, hcp, hconv]

/-- Claim C6: the stored filename is exactly declared-size ++ extension, so
two valid uploads with equal declared size and equal extension collide on the
same stored filename, and after both requests the stored bytes at that name
are the second upload's bytes — the first upload was silently overwritten,
regardless of content. -/
theorem storedFilename_collision_overwrites
    (env1 env2 : Env) (w : World) (req1 req2 : AddRequest) (now1 now2 : Nat) (fp1 fp2 : FilePart)
    (h1m : req1.method = "POST") (h1f : req1.formParseOk = true) (h1i : req1.imageFile = some fp1)
    (h1c : req1.createOk = true) (h1cp : req1.copyOk = true)
    (h2m : req2.method = "POST") (h2f : req2.formParseOk = true) (h2i : req2.imageFile = some fp2)
    (h2c : req2.createOk = true) (h2cp : req2.copyOk = true)
    (hsize : fp1.size = fp2.size) (hext : filepathExt fp1.filename = filepathExt fp2.filename) :
    storedFilename fp1.size fp1.filename = storedFilename fp2.size fp2.filename ∧
    lookupFile (AddNoteHandler env1 w req1 now1).2.files
        (joinImages (storedFilename fp1.size fp1.filename)) = some fp1.content ∧
    lookupFile (AddNoteHandler env2 (AddNoteHandler env1 w req1 now1).2 req2 now2).2.files
        (joinImages (storedFilename fp1.size fp1.filename)) = some fp2.content := by
  have hname : storedFilename fp1.size fp1.filename = storedFilename fp2.size fp2.filename := by
    unfold storedFilename
    rw [hsize, hext]
  refine ⟨hname, ?_, ?_⟩
  · rw [addNoteHandler_files env1 w req1 now1 fp1 h1m h1f h1i h1c h1cp]
    rw [lookupFile_setFile]
    simp
  · rw [addNoteHandler_files env2 _ req2 now2 fp2 h2m h2f h2i h2c h2cp]
    rw [hname, lookupFile_setFile]
    simp

/-- Witness for C6: `a.png` (3 bytes declared, content [1]) then `b.png`
(3 bytes declared, content [2, 3]) collide on `3.png`; the lookup returns the
second upload's bytes. -/
theorem storedFilename_collision_overwrites_witness :
    storedFilename (3 : Int) "a.png" = storedFilename (3 : Int) "b.png" ∧
    lookupFile (AddNoteHandler
        { clientProvided := true, apiKeyEnv := "k", net := fun _ => Except.ok { choices := [] } }
        { db := { rows := [], nextId := 1 }, files := [] }
        { method := "POST", formParseOk := true,
          imageFile := some { filename := "a.png", size := 3, content := [1] },
          createOk := true, copyOk := true } 0).2.files
      (joinImages (storedFilename (3 : Int) "a.png")) = some [1] ∧
    lookupFile (AddNoteHandler
        { clientProvided := true, apiKeyEnv := "k", net := fun _ => Except.ok { choices := [] } }
        (AddNoteHandler
          { clientProvided := true, apiKeyEnv := "k", net := fun _ => Except.ok { choices := [] } }
          { db := { rows := [], nextId := 1 }, files := [] }
          { method := "POST", formParseOk := true,
            imageFile := some { filename := "a.png", size := 3, content := [1] },
            createOk := true, copyOk := true } 0).2
        { method := "POST", formParseOk := true,
          imageFile := some { filename := "b.png", size := 3, content := [2, 3] },
          createOk := true, copyOk := true } 1).2.files
      (joinImages (storedFilename (3 : Int) "a.png")) = some [2, 3] :=
  storedFilename_collision_overwrites
    { clientProvided := true, apiKeyEnv := "k", net := fun _ => Except.ok { choices := [] } }
    { clientProvided := true, apiKeyEnv := "k", net := fun _ => Except.ok { choices := [] } }
    { db := { rows := [], nextId := 1 }, files := [] }
    { method := "POST", formParseOk := true,
      imageFile := some { filename := "a.png", size := 3, content := [1] },
      createOk := true, copyOk := true }
    { method := "POST", formParseOk := true,
      imageFile := some { filename := "b.png", size := 3, content := [2, 3] },
      createOk := true, copyOk := true }
    0 1
    { filename := "a.png", size := 3, content := [1] }
    { filename := "b.png", size := 3, content := [2, 3] }
    rfl rfl rfl rfl rfl rfl rfl rfl rfl rfl rfl (by decide)

/-! ### C10 -/

/-- Folding the newline escape over characters none of which is a newline is
the identity. -/
theorem foldr_escape_id (l : List Char) (h : ∀ c ∈ l, c ≠ '\n') :
    l.foldr (fun c acc => (if c = '\n' then ['\\', 'n'] else [c]) ++ acc) [] = l := by
  induction l with
  | nil => rfl
  | cons c t ih =>
    have hc : c ≠ '\n' := h c (by simp)
    have ht : ∀ x ∈ t, x ≠ '\n' := fun x hx => h x (by simp [hx])
    simp only [List.foldr_cons, if_neg hc, ih ht, List.singleton_append]

/-- A markdown string without newlines is embedded verbatim. -/
theorem escapeNewlines_of_no_newline (s : String) (h : ∀ c ∈ s.toList, c ≠ '\n') :
    escapeNewlines s = s := by
  unfold escapeNewlines
  rw [foldr_escape_id s.toList h]
  rfl

/-- Claim C10: the handlers' success envelope applies only the newline →
backslash-n replacement to the markdown (every non-newline character,
including quotes and backslashes, is embedded verbatim); the envelope for a
newline-bearing markdown is well-formed JSON, but a markdown containing a
double quote — here returned by the transcription of an `/api/add-note`
upload — produces a 200 response whose body is not well-formed JSON. -/
theorem successEnvelope_escape_only_newlines_json_break :
    (∀ s : String, (∀ c ∈ s.toList, c ≠ '\n') → escapeNewlines s = s) ∧
    jsonValid (renderEnvelope 1 "10.png" "hello\nworld") = true ∧
    (AddNoteHandler
        { clientProvided := true, apiKeyEnv := "k",
          net := fun _ => Except.ok { choices := [{ message := { content := "a\"b" } }] } }
        { db := { rows := [], nextId := 1 }, files := [] }
        { method := "POST", formParseOk := true,
          imageFile := some { filename := "a.png", size := 3, content := [9, 9, 9] },
          createOk := true, copyOk := true } 0).1.status = 200 ∧
    jsonValid (AddNoteHandler
        { clientProvided := true, apiKeyEnv := "k",
          net := fun _ => Except.ok { choices := [{ message := { content := "a\"b" } }] } }
        { db := { rows := [], nextId := 1 }, files := [] }
        { method := "POST", formParseOk := true,
          imageFile := some { filename := "a.png", size := 3, content := [9, 9, 9] },
          createOk := true, copyOk := true } 0).1.body = false :=
  ⟨fun s h => escapeNewlines_of_no_newline s h, by decide, by decide, by decide⟩

/-- Witness for C10: the verbatim-embedding part applied to a concrete
newline-free markdown string containing a quote and a backslash. -/
theorem successEnvelope_escape_only_newlines_json_break_witness :
    escapeNewlines "a\"b\\c" = "a\"b\\c" :=
  successEnvelope_escape_only_newlines_json_break.1 "a\"b\\c" (by decide)
